import Mathlib

/-!
Shallow embedding of the LOV connectivity-search application (`src/src/App.jsx`,
the canonical second variant of the file: `calculateConnectivityScore` with the
60/40 design/adoption weighting, `executeSPARQLQuery`, `getAdoptionConvergenceData`,
`getDesignConvergenceData`, `searchLOV`, and `performSearch`).

Modelling conventions:
* JavaScript values flowing through the pipeline are modelled by the inductive
  type `Js` (undefined, null, booleans, integer numbers, strings, arrays,
  objects).  The numeric payloads of this application are integer counts, so
  `num` carries an `Int`.
* Property access `x.f` is `jsGet`: it throws (models a `TypeError`) exactly on
  `null`/`undefined` receivers and returns `undefined` for absent fields, as in
  JavaScript.  Optional chaining `x?.f` is the total function `optChain`.
* Thrown exceptions are `Except Unit`; a `try { … } catch { … }` block is a
  `match` on the `Except` value.
* `Math.log` is the real logarithm `Real.log`; scores live in `ℝ`.
* Network transport is abstracted by `FetchOutcome`: a rejected `fetch`
  (network error), or a response with an `ok` flag and a body that either
  parses as JSON (`some` of the parsed `Js` value) or does not (`none`,
  making `response.json()` throw).
* Functions that may issue a network request also return the number of
  requests they issued, so that "no network call" claims are statable.
-/

/-- JavaScript values, restricted to the shapes this application manipulates.
Numbers are integer-valued throughout the pipeline (counts and string lengths),
so `num` carries an `Int`. -/
inductive Js where
  | undef : Js
  | null : Js
  | bool : Bool → Js
  | num : Int → Js
  | str : String → Js
  | arr : List Js → Js
  | obj : List (String × Js) → Js

/-- Truthiness of a JavaScript value (`undefined`, `null`, `false`, `0` and the
empty string are falsy; arrays and objects are always truthy). -/
def jsTruthy : Js → Bool
  | Js.undef => false
  | Js.null => false
  | Js.bool b => b
  | Js.num n => n != 0
  | Js.str s => s != ""
  | Js.arr _ => true
  | Js.obj _ => true

/-- The JavaScript `a || b` operator: `a` when truthy, otherwise `b`. -/
def jsOr (a b : Js) : Js := if jsTruthy a then a else b

/-- Property access `v.k`.  Throws a `TypeError` (modelled as `Except.error ()`)
when the receiver is `null` or `undefined`; returns `undefined` for a missing
field or for access on a primitive. -/
def jsGet : Js → String → Except Unit Js
  | Js.undef, _ => Except.error ()
  | Js.null, _ => Except.error ()
  | Js.obj fields, k => Except.ok ((List.lookup k fields).getD Js.undef)
  | _, _ => Except.ok Js.undef

/-- Optional chaining `v?.k`: `undefined` when the receiver is `null` or
`undefined` (or a primitive without the field), the field value otherwise. -/
def optChain (v : Js) (k : String) : Js :=
  match v with
  | Js.obj fields => (List.lookup k fields).getD Js.undef
  | _ => Js.undef

mutual

/-- String coercion of a JavaScript value (the `ToString` abstract operation,
as used by `parseInt` and by object property keys): arrays join their elements
with a comma, objects print as "[object Object]". -/
def jsToString : Js → String
  | Js.undef => "undefined"
  | Js.null => "null"
  | Js.bool b => if b then "true" else "false"
  | Js.num n => toString n
  | Js.str s => s
  | Js.arr l => String.intercalate "," (jsToStringItems l)
  | Js.obj _ => "[object Object]"

/-- Element-wise stringification used by `Array.prototype.toString` (`join`),
where `null` and `undefined` elements become the empty string. -/
def jsToStringItems : List Js → List String
  | [] => []
  | Js.undef :: xs => "" :: jsToStringItems xs
  | Js.null :: xs => "" :: jsToStringItems xs
  | x :: xs => jsToString x :: jsToStringItems xs

end

/-- The `.length` read used by the pipeline: array length, string length, a
`length` field on plain objects, `undefined` on other primitives. -/
def jsLength : Js → Js
  | Js.arr l => Js.num l.length
  | Js.str s => Js.num s.length
  | Js.obj fields => (List.lookup "length" fields).getD Js.undef
  | _ => Js.undef

/-- The guard `x.length === 0` (strict equality, so `undefined === 0` is
false). -/
def jsLengthEqZero (v : Js) : Bool :=
  match jsLength v with
  | Js.num n => n == 0
  | _ => false

/-- JavaScript whitespace characters recognised by `String.prototype.trim`
(space, tab, line terminators, no-break space, BOM). -/
def isJsWhitespace (c : Char) : Bool :=
  c = ' ' || c = '\t' || c = '\n' || c = '\r' || c = '\x0b' || c = '\x0c' ||
  c = ' ' || c = '﻿'

/-- The JavaScript `String.prototype.trim`: strip leading and trailing
whitespace. -/
def jsTrim (s : String) : String :=
  String.mk (((s.data.dropWhile isJsWhitespace).reverse.dropWhile isJsWhitespace).reverse)

/-- Numeric value of a list of decimal digit characters. -/
def digitsVal (l : List Char) : Nat :=
  l.foldl (fun a c => a * 10 + (c.toNat - 48)) 0

/-- The JavaScript `parseInt` in its radix-10 form as exercised by this
application: skip leading whitespace, read an optional sign and then a maximal
run of decimal digits; `none` models the `NaN` result when no digit is
present. -/
def jsParseInt (s : String) : Option Int :=
  let cs := s.data.dropWhile isJsWhitespace
  let signed : Int × List Char :=
    match cs with
    | '-' :: t => (-1, t)
    | '+' :: t => (1, t)
    | t => (1, t)
  let digits := signed.2.takeWhile Char.isDigit
  if digits.isEmpty then none
  else some (signed.1 * (digitsVal digits : Int))

/-- The idiom `parseInt(s) || 0`: an unparseable value (`NaN`) collapses to
`0`; a parsed `0` stays `0`. -/
def parseIntOr0 (s : String) : Int := (jsParseInt s).getD 0

/-- Adoption metrics of one vocabulary as stored by
`getAdoptionConvergenceData` and by the merge step's default literal:
three counts kept as strings. -/
structure AdoptionData where
  reusedByVocabularies : String
  reusedByDatasets : String
  occurrencesInDatasets : String
deriving DecidableEq

/-- Design metrics of one vocabulary as stored by `getDesignConvergenceData`:
six `parseInt` results (`none` models `NaN` from an unparseable count). -/
structure DesignData where
  extendsCount : Option Int
  hasEquivalencesWith : Option Int
  reliesOn : Option Int
  usedBy : Option Int
  specializes : Option Int
  generalizes : Option Int
deriving DecidableEq

/-- The default adoption record substituted by the merge step when a `uri` has
no row in the adoption mapping. -/
def defaultAdoptionData : AdoptionData := ⟨"0", "0", "0"⟩

/-- The default design record substituted by the merge step when a `uri` has
no row in the design mapping. -/
def defaultDesignData : DesignData :=
  ⟨some 0, some 0, some 0, some 0, some 0, some 0⟩

/-- The scoring function `calculateConnectivityScore(adoptionData, designData)`
of the canonical (60/40) variant: parse the three adoption strings with
`parseInt(x) || 0`, read the six design counts with `x || 0`, sum
`Math.log(1 + count)` terms per facet, weight 60% design / 40% adoption,
divide by 15 and cap at 1. -/
noncomputable def calculateConnectivityScore (adoptionData : AdoptionData) (designData : DesignData) : ℝ :=
  let reusedByVocabs : Int := parseIntOr0 adoptionData.reusedByVocabularies
  let reusedByDatasets : Int := parseIntOr0 adoptionData.reusedByDatasets
  let occurrences : Int := parseIntOr0 adoptionData.occurrencesInDatasets
  let extendsCount : Int := designData.extendsCount.getD 0
  let hasEquivalences : Int := designData.hasEquivalencesWith.getD 0
  let reliesOn : Int := designData.reliesOn.getD 0
  let usedBy : Int := designData.usedBy.getD 0
  let specializes : Int := designData.specializes.getD 0
  let generalizes : Int := designData.generalizes.getD 0
  let designConvergence : ℝ :=
    Real.log (1 + (extendsCount : ℝ)) +
    Real.log (1 + (hasEquivalences : ℝ)) +
    Real.log (1 + (reliesOn : ℝ)) +
    Real.log (1 + (usedBy : ℝ)) +
    Real.log (1 + (specializes : ℝ)) +
    Real.log (1 + (generalizes : ℝ))
  let adoptionConvergence : ℝ :=
    Real.log (1 + (reusedByVocabs : ℝ)) +
    Real.log (1 + (reusedByDatasets : ℝ)) +
    Real.log (1 + (occurrences : ℝ) / 1000)
  let totalScore : ℝ := 0.6 * designConvergence + 0.4 * adoptionConvergence
  min 1 (totalScore / 15)

/-- Outcome of one `fetch` call: the promise rejects (network error), or a
response arrives with an `ok` flag and a body that either parses as JSON
(`some` parsed value) or makes `response.json()` throw (`none`). -/
inductive FetchOutcome where
  | networkError : FetchOutcome
  | response : Bool → Option Js → FetchOutcome

/-- Body of the `try` block of `searchLOV`: throw on a rejected fetch or a
non-ok status, parse the body, and return `data.results || []`. -/
def searchLOVBody (t : FetchOutcome) : Except Unit Js := do
  match t with
  | FetchOutcome.networkError => throw ()
  | FetchOutcome.response ok body =>
    if !ok then throw ()
    let data ← match body with
      | none => throw ()
      | some v => pure v
    let results ← jsGet data "results"
    pure (jsOr results (Js.arr []))

/-- The `searchLOV(searchTerm)` client: an empty-after-trim term returns `[]`
without touching the network; otherwise one request is issued and any thrown
error is caught and degraded to `[]`.  The second component counts the network
requests issued. -/
def searchLOV (t : FetchOutcome) (searchTerm : String) : Js × Nat :=
  if jsTrim searchTerm = "" then (Js.arr [], 0)
  else
    (match searchLOVBody t with
     | Except.ok v => v
     | Except.error _ => Js.arr [], 1)

/-- Body of the `try` block of `executeSPARQLQuery`: throw on a rejected fetch,
a non-ok status or an unparseable body, then return `data.results.bindings`
(each property access throws on a `null`/`undefined` receiver). -/
def executeSPARQLQueryBody (t : FetchOutcome) : Except Unit Js := do
  match t with
  | FetchOutcome.networkError => throw ()
  | FetchOutcome.response ok body =>
    if !ok then throw ()
    let data ← match body with
      | none => throw ()
      | some v => pure v
    let results ← jsGet data "results"
    jsGet results "bindings"

/-- The `executeSPARQLQuery(query)` client: always issues exactly one request;
a thrown error is caught and degraded to `[]`.  Note that when the payload's
`results` is a non-null object without a `bindings` field, no error is thrown
and the function returns `undefined`, not `[]`. -/
def executeSPARQLQuery (t : FetchOutcome) : Js × Nat :=
  (match executeSPARQLQueryBody t with
   | Except.ok v => v
   | Except.error _ => Js.arr [], 1)

/-- A binding field read `result.f?.value || '0'`, coerced to the string the
downstream `parseInt` sees. -/
def bindingField (result : Js) (name : String) : Except Unit String := do
  let v ← jsGet result name
  pure (jsToString (jsOr (optChain v "value") (Js.str "0")))

/-- One iteration of the `results.forEach` loop of `getAdoptionConvergenceData`:
read `result.vocab?.value`, and when truthy store the three adoption strings
under that uri (later writes shadow earlier ones). -/
def addAdoptionRow (m : List (String × AdoptionData)) (result : Js) : Except Unit (List (String × AdoptionData)) := do
  let vocab ← jsGet result "vocab"
  let uriJs := optChain vocab "value"
  if jsTruthy uriJs then
    let rv ← bindingField result "reusedByVocabs"
    let rd ← bindingField result "reusedByDatasets"
    let oc ← bindingField result "occurrences"
    pure ((jsToString uriJs, AdoptionData.mk rv rd oc) :: m)
  else
    pure m

/-- The `forEach` loop of `getAdoptionConvergenceData` over the binding rows. -/
def adoptionRowsLoop : List (String × AdoptionData) → List Js → Except Unit (List (String × AdoptionData))
  | m, [] => Except.ok m
  | m, r :: rs => do
    let m' ← addAdoptionRow m r
    adoptionRowsLoop m' rs

/-- The `getAdoptionConvergenceData(vocabularyUris)` fetcher: an empty uri set
returns an empty mapping with no request; otherwise one SPARQL request is
issued and the binding rows are folded into a uri-keyed mapping.  Iterating
`forEach` over a non-array result value throws. -/
def getAdoptionConvergenceData (vocabularyUris : List Js) (t : FetchOutcome) : Except Unit (List (String × AdoptionData)) × Nat :=
  if vocabularyUris.isEmpty then (Except.ok [], 0)
  else
    let q := executeSPARQLQuery t
    (match q.1 with
     | Js.arr rows => adoptionRowsLoop [] rows
     | _ => Except.error (), q.2)

/-- One iteration of the `results.forEach` loop of `getDesignConvergenceData`:
read `result.vocab?.value`, and when truthy store the six `parseInt` counts
under that uri. -/
def addDesignRow (m : List (String × DesignData)) (result : Js) : Except Unit (List (String × DesignData)) := do
  let vocab ← jsGet result "vocab"
  let uriJs := optChain vocab "value"
  if jsTruthy uriJs then
    let ex ← bindingField result "extendsCount"
    let he ← bindingField result "hasEquivalencesCount"
    let re ← bindingField result "reliesOnCount"
    let ub ← bindingField result "usedByCount"
    let sp ← bindingField result "specializesCount"
    let ge ← bindingField result "generalizesCount"
    pure ((jsToString uriJs,
           DesignData.mk (jsParseInt ex) (jsParseInt he) (jsParseInt re)
             (jsParseInt ub) (jsParseInt sp) (jsParseInt ge)) :: m)
  else
    pure m

/-- The `forEach` loop of `getDesignConvergenceData` over the binding rows. -/
def designRowsLoop : List (String × DesignData) → List Js → Except Unit (List (String × DesignData))
  | m, [] => Except.ok m
  | m, r :: rs => do
    let m' ← addDesignRow m r
    designRowsLoop m' rs

/-- The `getDesignConvergenceData(vocabularyUris)` fetcher: an empty uri set
returns an empty mapping with no request; otherwise one SPARQL request is
issued and the binding rows are folded into a uri-keyed mapping. -/
def getDesignConvergenceData (vocabularyUris : List Js) (t : FetchOutcome) : Except Unit (List (String × DesignData)) × Nat :=
  if vocabularyUris.isEmpty then (Except.ok [], 0)
  else
    let q := executeSPARQLQuery t
    (match q.1 with
     | Js.arr rows => designRowsLoop [] rows
     | _ => Except.error (), q.2)

/-- The uri-collection step
`lovResults.map(result => result.uri).filter(Boolean)`: calling `.map` on a
non-array throws, as does `result.uri` on a `null`/`undefined` element. -/
def jsMapUris (lovResults : Js) : Except Unit (List Js) :=
  match lovResults with
  | Js.arr rows => do
    let uris ← rows.mapM (fun r => jsGet r "uri")
    pure (uris.filter jsTruthy)
  | _ => Except.error ()

/-- One merged record of the pipeline: the original search row joined with its
adoption and design metrics and the derived `connectivityScore`. -/
structure EnhancedResult where
  base : Js
  adoptionData : AdoptionData
  designData : DesignData
  connectivityScore : ℝ

/-- One iteration of the merge `lovResults.map(result => …)`: look up
`result.uri` (stringified, as JavaScript object keys are) in both mappings,
fall back to the documented defaults, and attach the computed score. -/
noncomputable def mergeRow (aMap : List (String × AdoptionData)) (dMap : List (String × DesignData)) (result : Js) : Except Unit EnhancedResult := do
  let uriJs ← jsGet result "uri"
  let adoption := (List.lookup (jsToString uriJs) aMap).getD defaultAdoptionData
  let design := (List.lookup (jsToString uriJs) dMap).getD defaultDesignData
  pure (EnhancedResult.mk result adoption design (calculateConnectivityScore adoption design))

/-- The merge `lovResults.map(…)` over the list of search rows, propagating a
thrown `TypeError` from any element. -/
noncomputable def mergeRows (aMap : List (String × AdoptionData)) (dMap : List (String × DesignData)) : List Js → Except Unit (List EnhancedResult)
  | [] => Except.ok []
  | r :: rs => do
    let x ← mergeRow aMap dMap r
    let xs ← mergeRows aMap dMap rs
    pure (x :: xs)

/-- The merge step of `performSearch`: `.map` on a non-array value throws. -/
noncomputable def mergeAndScore (aMap : List (String × AdoptionData)) (dMap : List (String × DesignData)) (lovResults : Js) : Except Unit (List EnhancedResult) :=
  match lovResults with
  | Js.arr rows => mergeRows aMap dMap rows
  | _ => Except.error ()

/-- The comparator `(a, b) => b.connectivityScore - a.connectivityScore` read
as the "`a` may precede `b`" Boolean relation of a stable sort. -/
noncomputable def scoreLE (a b : EnhancedResult) : Bool :=
  decide (b.connectivityScore ≤ a.connectivityScore)

/-- The sort step `enhancedResults.sort((a, b) => b.connectivityScore -
a.connectivityScore)`, modelled as the stable merge sort mandated for
`Array.prototype.sort`. -/
noncomputable def sortByScore (l : List EnhancedResult) : List EnhancedResult :=
  List.mergeSort l scoreLE

/-- Steps 2–4 of the `try` block of `performSearch`, after the zero-results
guard: collect uris, issue both metadata queries (both fetches fire at the
`Promise.all` join point, so both are counted even if one loop then throws),
merge, score and sort.  The second component counts SPARQL requests issued. -/
noncomputable def searchPipeline (lovResults : Js) (tA tD : FetchOutcome) : Except Unit (List EnhancedResult) × Nat :=
  match jsMapUris lovResults with
  | Except.error e => (Except.error e, 0)
  | Except.ok vocabularyUris =>
    let a := getAdoptionConvergenceData vocabularyUris tA
    let d := getDesignConvergenceData vocabularyUris tD
    ((do
       let adoptionData ← a.1
       let designData ← d.1
       let enhancedResults ← mergeAndScore adoptionData designData lovResults
       pure (sortByScore enhancedResults)), a.2 + d.2)

/-- The component state read and written by `performSearch`
(`searchResults`, `loading`, `error`). -/
structure AppState where
  searchResults : List EnhancedResult
  loading : Bool
  error : Option String

/-- Result of one `performSearch` invocation: the final state plus the number
of keyword-search and SPARQL requests issued. -/
structure RunResult where
  state : AppState
  searchCalls : Nat
  sparqlCalls : Nat

/-- The `performSearch(term)` orchestration: empty-after-trim terms clear the
results and return before any network access; a keyword search with zero rows
clears the results without issuing the metadata queries; otherwise the
pipeline runs, a success stores the sorted list, and a thrown error is caught
at the boundary, setting the generic error message while leaving the
previously stored results untouched; `loading` is cleared on every exit from
the `try` block. -/
noncomputable def performSearch (term : String) (tS tA tD : FetchOutcome) (st : AppState) : RunResult :=
  if jsTrim term = "" then
    RunResult.mk (AppState.mk [] st.loading st.error) 0 0
  else
    let lov := searchLOV tS term
    if jsLengthEqZero lov.1 then
      RunResult.mk (AppState.mk [] false none) lov.2 0
    else
      let p := searchPipeline lov.1 tA tD
      match p.1 with
      | Except.ok enhancedResults =>
        RunResult.mk (AppState.mk enhancedResults false none) lov.2 p.2
      | Except.error _ =>
        RunResult.mk (AppState.mk st.searchResults false (some "Search failed. Please try again.")) lov.2 p.2

/-! Helper lemmas about the `Math.log(1 + x)` terms of the score. -/

/-- The logarithm term of a non-negative real metric is non-negative. -/
lemma log1p_nonneg {x : ℝ} (hx : 0 ≤ x) : 0 ≤ Real.log (1 + x) :=
  Real.log_nonneg (by linarith)

/-- The logarithm term is monotone on non-negative real metrics. -/
lemma log1p_mono {x y : ℝ} (hx : 0 ≤ x) (hxy : x ≤ y) :
    Real.log (1 + x) ≤ Real.log (1 + y) :=
  Real.log_le_log (by linarith) (by linarith)

/-- The logarithm term of a non-negative integer metric is non-negative. -/
lemma log1p_int_nonneg {x : Int} (hx : 0 ≤ x) : 0 ≤ Real.log (1 + (x : ℝ)) :=
  log1p_nonneg (by exact_mod_cast hx)

/-- The logarithm term is monotone on non-negative integer metrics. -/
lemma log1p_int_mono {x y : Int} (hx : 0 ≤ x) (hxy : x ≤ y) :
    Real.log (1 + (x : ℝ)) ≤ Real.log (1 + (y : ℝ)) :=
  log1p_mono (by exact_mod_cast hx) (by exact_mod_cast hxy)

/-- Any score produced by `calculateConnectivityScore` on metrics whose parsed
values are non-negative lies between `0` and `1`: the weighted sum of
non-negative logarithm terms is non-negative, and the final `Math.min` caps it
at `1`. -/
lemma calculateConnectivityScore_bounds (a : AdoptionData) (d : DesignData)
    (h1 : 0 ≤ parseIntOr0 a.reusedByVocabularies)
    (h2 : 0 ≤ parseIntOr0 a.reusedByDatasets)
    (h3 : 0 ≤ parseIntOr0 a.occurrencesInDatasets)
    (h4 : 0 ≤ d.extendsCount.getD 0)
    (h5 : 0 ≤ d.hasEquivalencesWith.getD 0)
    (h6 : 0 ≤ d.reliesOn.getD 0)
    (h7 : 0 ≤ d.usedBy.getD 0)
    (h8 : 0 ≤ d.specializes.getD 0)
    (h9 : 0 ≤ d.generalizes.getD 0) :
    0 ≤ calculateConnectivityScore a d ∧ calculateConnectivityScore a d ≤ 1 := by
  have l1 := log1p_int_nonneg h1
  have l2 := log1p_int_nonneg h2
  have l3 : 0 ≤ Real.log (1 + (parseIntOr0 a.occurrencesInDatasets : ℝ) / 1000) := by
    apply log1p_nonneg
    have : (0 : ℝ) ≤ (parseIntOr0 a.occurrencesInDatasets : ℝ) := by exact_mod_cast h3
    positivity
  have l4 := log1p_int_nonneg h4
  have l5 := log1p_int_nonneg h5
  have l6 := log1p_int_nonneg h6
  have l7 := log1p_int_nonneg h7
  have l8 := log1p_int_nonneg h8
  have l9 := log1p_int_nonneg h9
  constructor
  · simp only [calculateConnectivityScore]
    apply le_min (by norm_num)
    have : (0 : ℝ) ≤
        0.6 * (Real.log (1 + (d.extendsCount.getD 0 : ℝ)) +
               Real.log (1 + (d.hasEquivalencesWith.getD 0 : ℝ)) +
               Real.log (1 + (d.reliesOn.getD 0 : ℝ)) +
               Real.log (1 + (d.usedBy.getD 0 : ℝ)) +
               Real.log (1 + (d.specializes.getD 0 : ℝ)) +
               Real.log (1 + (d.generalizes.getD 0 : ℝ))) +
        0.4 * (Real.log (1 + (parseIntOr0 a.reusedByVocabularies : ℝ)) +
               Real.log (1 + (parseIntOr0 a.reusedByDatasets : ℝ)) +
               Real.log (1 + (parseIntOr0 a.occurrencesInDatasets : ℝ) / 1000)) := by
      linarith
    linarith
  · simp only [calculateConnectivityScore]
    exact min_le_left _ _

/-- The score of the all-default metrics record (`"0"` strings, zero counts)
is exactly `0`: every logarithm term is `log 1 = 0`. -/
lemma calculateConnectivityScore_defaults :
    calculateConnectivityScore defaultAdoptionData defaultDesignData = 0 := by
  have hp : parseIntOr0 "0" = 0 := by decide
  simp only [calculateConnectivityScore, defaultAdoptionData, defaultDesignData, hp,
    Option.getD_some]
  norm_num [Real.log_one]

/-- C1: for every adoption record (string fields parsed with `parseInt(x)||0`)
and design record (six counts), `calculateConnectivityScore` returns exactly
`min(1, (0.6·Σ ln(1+designCount) + 0.4·(ln(1+reusedByVocabularies) +
ln(1+reusedByDatasets) + ln(1+occurrencesInDatasets/1000))) / 15)`, a value
clamped to `[0,1]` and never negative. -/
theorem calculateConnectivityScore_exact_formula (a : AdoptionData) (d : DesignData)
    (rv rd oc ex he re ub sp ge : ℕ)
    (h1 : parseIntOr0 a.reusedByVocabularies = (rv : Int))
    (h2 : parseIntOr0 a.reusedByDatasets = (rd : Int))
    (h3 : parseIntOr0 a.occurrencesInDatasets = (oc : Int))
    (h4 : d.extendsCount.getD 0 = (ex : Int))
    (h5 : d.hasEquivalencesWith.getD 0 = (he : Int))
    (h6 : d.reliesOn.getD 0 = (re : Int))
    (h7 : d.usedBy.getD 0 = (ub : Int))
    (h8 : d.specializes.getD 0 = (sp : Int))
    (h9 : d.generalizes.getD 0 = (ge : Int)) :
    calculateConnectivityScore a d =
      min 1 ((0.6 * (Real.log (1 + (ex : ℝ)) + Real.log (1 + (he : ℝ)) +
                     Real.log (1 + (re : ℝ)) + Real.log (1 + (ub : ℝ)) +
                     Real.log (1 + (sp : ℝ)) + Real.log (1 + (ge : ℝ))) +
              0.4 * (Real.log (1 + (rv : ℝ)) + Real.log (1 + (rd : ℝ)) +
                     Real.log (1 + (oc : ℝ) / 1000))) / 15)
    ∧ 0 ≤ calculateConnectivityScore a d ∧ calculateConnectivityScore a d ≤ 1 := by
  refine ⟨?_, ?_⟩
  · simp only [calculateConnectivityScore, h1, h2, h3, h4, h5, h6, h7, h8, h9,
      Int.cast_natCast]
  · exact calculateConnectivityScore_bounds a d (h1 ▸ Int.natCast_nonneg rv)
      (h2 ▸ Int.natCast_nonneg rd) (h3 ▸ Int.natCast_nonneg oc)
      (h4 ▸ Int.natCast_nonneg ex) (h5 ▸ Int.natCast_nonneg he)
      (h6 ▸ Int.natCast_nonneg re) (h7 ▸ Int.natCast_nonneg ub)
      (h8 ▸ Int.natCast_nonneg sp) (h9 ▸ Int.natCast_nonneg ge)

/-- Witness for C1 at a concrete metrics record. -/
theorem calculateConnectivityScore_exact_formula_witness :
    calculateConnectivityScore (AdoptionData.mk "2" "3" "4")
        (DesignData.mk (some 1) (some 0) (some 2) (some 0) (some 0) (some 0)) =
      min 1 ((0.6 * (Real.log (1 + ((1 : ℕ) : ℝ)) + Real.log (1 + ((0 : ℕ) : ℝ)) +
                     Real.log (1 + ((2 : ℕ) : ℝ)) + Real.log (1 + ((0 : ℕ) : ℝ)) +
                     Real.log (1 + ((0 : ℕ) : ℝ)) + Real.log (1 + ((0 : ℕ) : ℝ))) +
              0.4 * (Real.log (1 + ((2 : ℕ) : ℝ)) + Real.log (1 + ((3 : ℕ) : ℝ)) +
                     Real.log (1 + ((4 : ℕ) : ℝ) / 1000))) / 15)
    ∧ 0 ≤ calculateConnectivityScore (AdoptionData.mk "2" "3" "4")
        (DesignData.mk (some 1) (some 0) (some 2) (some 0) (some 0) (some 0))
    ∧ calculateConnectivityScore (AdoptionData.mk "2" "3" "4")
        (DesignData.mk (some 1) (some 0) (some 2) (some 0) (some 0) (some 0)) ≤ 1 :=
  calculateConnectivityScore_exact_formula (AdoptionData.mk "2" "3" "4")
    (DesignData.mk (some 1) (some 0) (some 2) (some 0) (some 0) (some 0))
    2 3 4 1 0 2 0 0 0
    (by decide) (by decide) (by decide) (by decide) (by decide) (by decide)
    (by decide) (by decide) (by decide)

/-- C4: the score is monotonically non-decreasing in each individual metric:
raising any subset of the nine parsed metric values (in particular a single
one, holding the others fixed) never decreases the value returned by
`calculateConnectivityScore`. -/
theorem calculateConnectivityScore_monotone (a a' : AdoptionData) (d d' : DesignData)
    (h1 : 0 ≤ parseIntOr0 a.reusedByVocabularies)
    (h1' : parseIntOr0 a.reusedByVocabularies ≤ parseIntOr0 a'.reusedByVocabularies)
    (h2 : 0 ≤ parseIntOr0 a.reusedByDatasets)
    (h2' : parseIntOr0 a.reusedByDatasets ≤ parseIntOr0 a'.reusedByDatasets)
    (h3 : 0 ≤ parseIntOr0 a.occurrencesInDatasets)
    (h3' : parseIntOr0 a.occurrencesInDatasets ≤ parseIntOr0 a'.occurrencesInDatasets)
    (h4 : 0 ≤ d.extendsCount.getD 0)
    (h4' : d.extendsCount.getD 0 ≤ d'.extendsCount.getD 0)
    (h5 : 0 ≤ d.hasEquivalencesWith.getD 0)
    (h5' : d.hasEquivalencesWith.getD 0 ≤ d'.hasEquivalencesWith.getD 0)
    (h6 : 0 ≤ d.reliesOn.getD 0)
    (h6' : d.reliesOn.getD 0 ≤ d'.reliesOn.getD 0)
    (h7 : 0 ≤ d.usedBy.getD 0)
    (h7' : d.usedBy.getD 0 ≤ d'.usedBy.getD 0)
    (h8 : 0 ≤ d.specializes.getD 0)
    (h8' : d.specializes.getD 0 ≤ d'.specializes.getD 0)
    (h9 : 0 ≤ d.generalizes.getD 0)
    (h9' : d.generalizes.getD 0 ≤ d'.generalizes.getD 0) :
    calculateConnectivityScore a d ≤ calculateConnectivityScore a' d' := by
  have l1 := log1p_int_mono h1 h1'
  have l2 := log1p_int_mono h2 h2'
  have l3 : Real.log (1 + (parseIntOr0 a.occurrencesInDatasets : ℝ) / 1000) ≤
      Real.log (1 + (parseIntOr0 a'.occurrencesInDatasets : ℝ) / 1000) := by
    apply log1p_mono
    · have : (0 : ℝ) ≤ (parseIntOr0 a.occurrencesInDatasets : ℝ) := by exact_mod_cast h3
      positivity
    · have : (parseIntOr0 a.occurrencesInDatasets : ℝ) ≤
          (parseIntOr0 a'.occurrencesInDatasets : ℝ) := by exact_mod_cast h3'
      linarith
  have l4 := log1p_int_mono h4 h4'
  have l5 := log1p_int_mono h5 h5'
  have l6 := log1p_int_mono h6 h6'
  have l7 := log1p_int_mono h7 h7'
  have l8 := log1p_int_mono h8 h8'
  have l9 := log1p_int_mono h9 h9'
  simp only [calculateConnectivityScore]
  apply min_le_min (le_refl 1)
  have h15 : (0 : ℝ) < 15 := by norm_num
  rw [div_le_div_iff_of_pos_right h15]
  linarith

/-- Witness for C4: raising the `reusedByDatasets` metric from 3 to 9 while
holding the other eight metrics fixed does not decrease the score. -/
theorem calculateConnectivityScore_monotone_witness :
    calculateConnectivityScore (AdoptionData.mk "2" "3" "4")
        (DesignData.mk (some 1) (some 0) (some 2) (some 0) (some 0) (some 0)) ≤
      calculateConnectivityScore (AdoptionData.mk "2" "9" "4")
        (DesignData.mk (some 1) (some 0) (some 2) (some 0) (some 0) (some 0)) :=
  calculateConnectivityScore_monotone
    (AdoptionData.mk "2" "3" "4") (AdoptionData.mk "2" "9" "4")
    (DesignData.mk (some 1) (some 0) (some 2) (some 0) (some 0) (some 0))
    (DesignData.mk (some 1) (some 0) (some 2) (some 0) (some 0) (some 0))
    (by decide) (by decide) (by decide) (by decide) (by decide) (by decide)
    (by decide) (by decide) (by decide) (by decide) (by decide) (by decide)
    (by decide) (by decide) (by decide) (by decide) (by decide) (by decide)

/-- C5: for every valid metrics record (all nine parsed values non-negative),
the value returned by `calculateConnectivityScore` lies in the closed
interval `[0, 1]`. -/
theorem calculateConnectivityScore_mem_Icc (a : AdoptionData) (d : DesignData)
    (h1 : 0 ≤ parseIntOr0 a.reusedByVocabularies)
    (h2 : 0 ≤ parseIntOr0 a.reusedByDatasets)
    (h3 : 0 ≤ parseIntOr0 a.occurrencesInDatasets)
    (h4 : 0 ≤ d.extendsCount.getD 0)
    (h5 : 0 ≤ d.hasEquivalencesWith.getD 0)
    (h6 : 0 ≤ d.reliesOn.getD 0)
    (h7 : 0 ≤ d.usedBy.getD 0)
    (h8 : 0 ≤ d.specializes.getD 0)
    (h9 : 0 ≤ d.generalizes.getD 0) :
    calculateConnectivityScore a d ∈ Set.Icc (0 : ℝ) 1 :=
  calculateConnectivityScore_bounds a d h1 h2 h3 h4 h5 h6 h7 h8 h9

/-- Witness for C5 at a concrete metrics record. -/
theorem calculateConnectivityScore_mem_Icc_witness :
    calculateConnectivityScore (AdoptionData.mk "11" "0" "2500")
        (DesignData.mk (some 5) (some 4) (some 3) (some 2) (some 1) (some 0)) ∈
      Set.Icc (0 : ℝ) 1 :=
  calculateConnectivityScore_mem_Icc (AdoptionData.mk "11" "0" "2500")
    (DesignData.mk (some 5) (some 4) (some 3) (some 2) (some 1) (some 0))
    (by decide) (by decide) (by decide) (by decide) (by decide) (by decide)
    (by decide) (by decide) (by decide)

/-- C6: the metrics record with every adoption field `"0"` and every design
count `0` receives a score of exactly `0`. -/
theorem calculateConnectivityScore_all_zero :
    calculateConnectivityScore (AdoptionData.mk "0" "0" "0")
      (DesignData.mk (some 0) (some 0) (some 0) (some 0) (some 0) (some 0)) = 0 :=
  calculateConnectivityScore_defaults

/-- The sort comparator is transitive. -/
lemma scoreLE_trans : ∀ (a b c : EnhancedResult),
    scoreLE a b = true → scoreLE b c = true → scoreLE a c = true := by
  intro a b c hab hbc
  simp only [scoreLE, decide_eq_true_eq] at *
  exact le_trans hbc hab

/-- The sort comparator is total. -/
lemma scoreLE_total : ∀ (a b : EnhancedResult), (scoreLE a b || scoreLE b a) = true := by
  intro a b
  simp only [scoreLE, Bool.or_eq_true, decide_eq_true_eq]
  exact le_total _ _

/-- On the success path, `searchPipeline` exposes exactly the stably sorted
merge output. -/
lemma searchPipeline_ok_eq_sortByScore (lov : Js) (tA tD : FetchOutcome)
    (uris : List Js) (aMap : List (String × AdoptionData))
    (dMap : List (String × DesignData)) (m : List EnhancedResult)
    (hu : jsMapUris lov = Except.ok uris)
    (ha : (getAdoptionConvergenceData uris tA).1 = Except.ok aMap)
    (hd : (getDesignConvergenceData uris tD).1 = Except.ok dMap)
    (hm : mergeAndScore aMap dMap lov = Except.ok m) :
    (searchPipeline lov tA tD).1 = Except.ok (sortByScore m) := by
  simp only [searchPipeline, hu, ha, hd, hm, bind, Except.bind, pure, Except.pure]

/-- C2: the final exposed list is the stable descending sort of the merged
records: it is pairwise non-increasing in `connectivityScore`, any two records
with equal scores keep the relative order they had in the merged
(keyword-search-ordered) list, and on the success path `searchPipeline`
exposes exactly `sortByScore` of the merge output. -/
theorem sortByScore_desc_stable (l : List EnhancedResult) (a b : EnhancedResult)
    (hab : a.connectivityScore = b.connectivityScore)
    (hsub : List.Sublist [a, b] l) :
    (sortByScore l).Pairwise (fun x y => y.connectivityScore ≤ x.connectivityScore)
    ∧ List.Sublist [a, b] (sortByScore l)
    ∧ ∀ (lov : Js) (tA tD : FetchOutcome) (uris : List Js)
        (aMap : List (String × AdoptionData)) (dMap : List (String × DesignData))
        (m : List EnhancedResult),
        jsMapUris lov = Except.ok uris →
        (getAdoptionConvergenceData uris tA).1 = Except.ok aMap →
        (getDesignConvergenceData uris tD).1 = Except.ok dMap →
        mergeAndScore aMap dMap lov = Except.ok m →
        (searchPipeline lov tA tD).1 = Except.ok (sortByScore m) := by
  refine ⟨?_, ?_, ?_⟩
  · have h := List.sorted_mergeSort scoreLE_trans scoreLE_total l
    exact h.imp (fun hxy => by simpa [scoreLE, decide_eq_true_eq] using hxy)
  · apply List.pair_sublist_mergeSort scoreLE_trans scoreLE_total ?_ hsub
    simp only [scoreLE, decide_eq_true_eq]
    exact le_of_eq hab.symm
  · intro lov tA tD uris aMap dMap m hu ha hd hm
    exact searchPipeline_ok_eq_sortByScore lov tA tD uris aMap dMap m hu ha hd hm

/-- Witness for C2 on a concrete two-element merged list whose records have
equal scores. -/
theorem sortByScore_desc_stable_witness :
    (sortByScore [EnhancedResult.mk (Js.str "A") defaultAdoptionData defaultDesignData 0,
                  EnhancedResult.mk (Js.str "B") defaultAdoptionData defaultDesignData 0]).Pairwise
        (fun x y => y.connectivityScore ≤ x.connectivityScore)
    ∧ List.Sublist
        [EnhancedResult.mk (Js.str "A") defaultAdoptionData defaultDesignData 0,
         EnhancedResult.mk (Js.str "B") defaultAdoptionData defaultDesignData 0]
        (sortByScore [EnhancedResult.mk (Js.str "A") defaultAdoptionData defaultDesignData 0,
                      EnhancedResult.mk (Js.str "B") defaultAdoptionData defaultDesignData 0])
    ∧ ∀ (lov : Js) (tA tD : FetchOutcome) (uris : List Js)
        (aMap : List (String × AdoptionData)) (dMap : List (String × DesignData))
        (m : List EnhancedResult),
        jsMapUris lov = Except.ok uris →
        (getAdoptionConvergenceData uris tA).1 = Except.ok aMap →
        (getDesignConvergenceData uris tD).1 = Except.ok dMap →
        mergeAndScore aMap dMap lov = Except.ok m →
        (searchPipeline lov tA tD).1 = Except.ok (sortByScore m) :=
  sortByScore_desc_stable
    [EnhancedResult.mk (Js.str "A") defaultAdoptionData defaultDesignData 0,
     EnhancedResult.mk (Js.str "B") defaultAdoptionData defaultDesignData 0]
    (EnhancedResult.mk (Js.str "A") defaultAdoptionData defaultDesignData 0)
    (EnhancedResult.mk (Js.str "B") defaultAdoptionData defaultDesignData 0)
    rfl (List.Sublist.refl _)

/-- Inversion of one merge iteration: a successful `mergeRow` read the row's
`uri` and produced exactly the row joined with the looked-up (or default)
metrics and their score. -/
lemma mergeRow_ok_inv (aMap : List (String × AdoptionData)) (dMap : List (String × DesignData))
    (r : Js) (e : EnhancedResult) (h : mergeRow aMap dMap r = Except.ok e) :
    ∃ u, jsGet r "uri" = Except.ok u ∧
      e = EnhancedResult.mk r
        ((List.lookup (jsToString u) aMap).getD defaultAdoptionData)
        ((List.lookup (jsToString u) dMap).getD defaultDesignData)
        (calculateConnectivityScore
          ((List.lookup (jsToString u) aMap).getD defaultAdoptionData)
          ((List.lookup (jsToString u) dMap).getD defaultDesignData)) := by
  cases hu : jsGet r "uri" with
  | error v =>
    simp only [mergeRow, hu, bind, Except.bind] at h
    exact Except.noConfusion h
  | ok u =>
    simp only [mergeRow, hu, bind, Except.bind, pure, Except.pure, Except.ok.injEq] at h
    exact ⟨u, rfl, h.symm⟩

/-- A successful `mergeRows` run relates input rows and merged records
pointwise. -/
lemma mergeRows_forall₂ (aMap : List (String × AdoptionData)) (dMap : List (String × DesignData)) :
    ∀ (rows : List Js) (out : List EnhancedResult),
      mergeRows aMap dMap rows = Except.ok out →
      List.Forall₂ (fun r e => mergeRow aMap dMap r = Except.ok e) rows out
  | [], out, h => by
    simp only [mergeRows, Except.ok.injEq] at h
    exact h ▸ List.Forall₂.nil
  | r :: rs, out, h => by
    cases hr : mergeRow aMap dMap r with
    | error v =>
      simp only [mergeRows, hr, bind, Except.bind] at h
      exact Except.noConfusion h
    | ok x =>
      cases hs : mergeRows aMap dMap rs with
      | error v =>
        simp only [mergeRows, hr, hs, bind, Except.bind] at h
        exact Except.noConfusion h
      | ok xs =>
        simp only [mergeRows, hr, hs, bind, Except.bind, pure, Except.pure,
          Except.ok.injEq] at h
        exact h ▸ List.Forall₂.cons hr (mergeRows_forall₂ aMap dMap rs xs hs)

/-- C3: a successful merge step produces exactly one merged record per input
search row (none dropped, none added), in the order of the search results; a
row whose `uri` is absent from both metadata mappings carries the documented
defaults (`"0"` adoption strings, zero design counts) and a
`connectivityScore` of `0`. -/
theorem mergeAndScore_one_record_per_entry
    (aMap : List (String × AdoptionData)) (dMap : List (String × DesignData))
    (rows : List Js) (out : List EnhancedResult)
    (h : mergeAndScore aMap dMap (Js.arr rows) = Except.ok out) :
    out.length = rows.length
    ∧ (∀ (i : ℕ) (hi : i < out.length) (hr : i < rows.length),
         (out.get ⟨i, hi⟩).base = rows.get ⟨i, hr⟩)
    ∧ (∀ (i : ℕ) (hi : i < out.length) (hr : i < rows.length) (u : Js),
         jsGet (rows.get ⟨i, hr⟩) "uri" = Except.ok u →
         List.lookup (jsToString u) aMap = none →
         List.lookup (jsToString u) dMap = none →
         (out.get ⟨i, hi⟩).adoptionData = defaultAdoptionData
         ∧ (out.get ⟨i, hi⟩).designData = defaultDesignData
         ∧ (out.get ⟨i, hi⟩).connectivityScore = 0) := by
  have hf : List.Forall₂ (fun r e => mergeRow aMap dMap r = Except.ok e) rows out :=
    mergeRows_forall₂ aMap dMap rows out h
  have hlen := hf.length_eq
  have hget := (List.forall₂_iff_get.mp hf).2
  refine ⟨hlen.symm, ?_, ?_⟩
  · intro i hi hr
    obtain ⟨u, hu, he⟩ := mergeRow_ok_inv aMap dMap _ _ (hget i hr hi)
    rw [he]
  · intro i hi hr u hu ha hd
    obtain ⟨u', hu', he⟩ := mergeRow_ok_inv aMap dMap _ _ (hget i hr hi)
    have huu : u' = u := by
      rw [hu] at hu'
      exact (Except.ok.injEq _ _ ▸ hu').symm
    rw [he, huu, ha, hd]
    exact ⟨rfl, rfl, calculateConnectivityScore_defaults⟩

/-- Witness for C3: one search row whose uri is absent from both (empty)
mappings merges to the default record with score `0`. -/
theorem mergeAndScore_one_record_per_entry_witness :
    ([EnhancedResult.mk (Js.obj [("uri", Js.str "A")]) defaultAdoptionData defaultDesignData
        (calculateConnectivityScore defaultAdoptionData defaultDesignData)]).length =
      ([Js.obj [("uri", Js.str "A")]]).length
    ∧ (∀ (i : ℕ)
         (hi : i < ([EnhancedResult.mk (Js.obj [("uri", Js.str "A")]) defaultAdoptionData
             defaultDesignData
             (calculateConnectivityScore defaultAdoptionData defaultDesignData)]).length)
         (hr : i < ([Js.obj [("uri", Js.str "A")]]).length),
         (([EnhancedResult.mk (Js.obj [("uri", Js.str "A")]) defaultAdoptionData
             defaultDesignData
             (calculateConnectivityScore defaultAdoptionData defaultDesignData)]).get
           ⟨i, hi⟩).base = ([Js.obj [("uri", Js.str "A")]]).get ⟨i, hr⟩)
    ∧ (∀ (i : ℕ)
         (hi : i < ([EnhancedResult.mk (Js.obj [("uri", Js.str "A")]) defaultAdoptionData
             defaultDesignData
             (calculateConnectivityScore defaultAdoptionData defaultDesignData)]).length)
         (hr : i < ([Js.obj [("uri", Js.str "A")]]).length) (u : Js),
         jsGet (([Js.obj [("uri", Js.str "A")]]).get ⟨i, hr⟩) "uri" = Except.ok u →
         List.lookup (jsToString u) ([] : List (String × AdoptionData)) = none →
         List.lookup (jsToString u) ([] : List (String × DesignData)) = none →
         (([EnhancedResult.mk (Js.obj [("uri", Js.str "A")]) defaultAdoptionData
             defaultDesignData
             (calculateConnectivityScore defaultAdoptionData defaultDesignData)]).get
           ⟨i, hi⟩).adoptionData = defaultAdoptionData
         ∧ (([EnhancedResult.mk (Js.obj [("uri", Js.str "A")]) defaultAdoptionData
             defaultDesignData
             (calculateConnectivityScore defaultAdoptionData defaultDesignData)]).get
           ⟨i, hi⟩).designData = defaultDesignData
         ∧ (([EnhancedResult.mk (Js.obj [("uri", Js.str "A")]) defaultAdoptionData
             defaultDesignData
             (calculateConnectivityScore defaultAdoptionData defaultDesignData)]).get
           ⟨i, hi⟩).connectivityScore = 0) :=
  mergeAndScore_one_record_per_entry [] [] [Js.obj [("uri", Js.str "A")]]
    [EnhancedResult.mk (Js.obj [("uri", Js.str "A")]) defaultAdoptionData defaultDesignData
      (calculateConnectivityScore defaultAdoptionData defaultDesignData)]
    rfl

/-- Trimming a whitespace-only (or empty) string yields the empty string. -/
lemma jsTrim_eq_empty (s : String) (h : ∀ c ∈ s.data, isJsWhitespace c = true) :
    jsTrim s = "" := by
  unfold jsTrim
  have h1 : s.data.dropWhile isJsWhitespace = [] := List.dropWhile_eq_nil_iff.mpr h
  rw [h1]
  rfl

/-- C7: for an empty or whitespace-only search term, `searchLOV` returns the
empty list with zero network requests, and `performSearch` stores an empty
result list having issued zero keyword-search and zero SPARQL requests. -/
theorem whitespace_term_no_network (term : String) (tS tA tD : FetchOutcome) (st : AppState)
    (h : ∀ c ∈ term.data, isJsWhitespace c = true) :
    searchLOV tS term = (Js.arr [], 0)
    ∧ performSearch term tS tA tD st = RunResult.mk (AppState.mk [] st.loading st.error) 0 0 := by
  have ht := jsTrim_eq_empty term h
  exact ⟨by simp only [searchLOV, ht, if_pos], by simp only [performSearch, ht, if_pos]⟩

/-- Witness for C7 at the two-space search term. -/
theorem whitespace_term_no_network_witness :
    searchLOV FetchOutcome.networkError "  " = (Js.arr [], 0)
    ∧ performSearch "  " FetchOutcome.networkError FetchOutcome.networkError
        FetchOutcome.networkError (AppState.mk [] false none) =
      RunResult.mk (AppState.mk [] (AppState.mk [] false none).loading
        (AppState.mk [] false none).error) 0 0 :=
  whitespace_term_no_network "  " FetchOutcome.networkError FetchOutcome.networkError
    FetchOutcome.networkError (AppState.mk [] false none) (by decide)

/-- C8: when the keyword search yields zero rows, `performSearch` stores an
empty result list after the single search request and issues no SPARQL
request at all; equivalently, both metadata fetchers return an empty mapping
immediately (zero requests) on an empty uri set. -/
theorem zero_rows_no_metadata_queries (term : String) (tS tA tD : FetchOutcome) (st : AppState)
    (h1 : jsTrim term ≠ "")
    (h2 : (searchLOV tS term).1 = Js.arr []) :
    performSearch term tS tA tD st = RunResult.mk (AppState.mk [] false none) 1 0
    ∧ (∀ t, getAdoptionConvergenceData [] t = (Except.ok [], 0))
    ∧ (∀ t, getDesignConvergenceData [] t = (Except.ok [], 0)) := by
  refine ⟨?_, fun t => rfl, fun t => rfl⟩
  have hc : (searchLOV tS term).2 = 1 := by
    simp only [searchLOV, if_neg h1]
  have hz : jsLengthEqZero (searchLOV tS term).1 = true := by
    rw [h2]
    rfl
  simp only [performSearch, if_neg h1, hz, if_pos, hc]

/-- Witness for C8: a successful search response whose `results` array is
empty. -/
theorem zero_rows_no_metadata_queries_witness :
    performSearch "x"
        (FetchOutcome.response true (some (Js.obj [("results", Js.arr [])])))
        FetchOutcome.networkError FetchOutcome.networkError
        (AppState.mk [] false none) =
      RunResult.mk (AppState.mk [] false none) 1 0
    ∧ (∀ t, getAdoptionConvergenceData [] t = (Except.ok [], 0))
    ∧ (∀ t, getDesignConvergenceData [] t = (Except.ok [], 0)) :=
  zero_rows_no_metadata_queries "x"
    (FetchOutcome.response true (some (Js.obj [("results", Js.arr [])])))
    FetchOutcome.networkError FetchOutcome.networkError
    (AppState.mk [] false none)
    (by decide) rfl

/-- Counterexample to C9 as stated: two well-formed JSON payloads that lack
the expected shape yet are not degraded to an empty list — a SPARQL response
whose `results` object has no `bindings` field makes `executeSPARQLQuery`
return `undefined`, and a search response whose `results` field is the truthy
number `5` is returned as-is by `searchLOV`. -/
theorem remote_client_malformed_counterexample :
    (executeSPARQLQuery (FetchOutcome.response true (some (Js.obj [("results", Js.obj [])])))).1
      = Js.undef
    ∧ Js.undef ≠ Js.arr []
    ∧ (searchLOV (FetchOutcome.response true (some (Js.obj [("results", Js.num 5)]))) "x").1
      = Js.num 5
    ∧ Js.num 5 ≠ Js.arr [] :=
  ⟨rfl, fun h => Js.noConfusion h, rfl, fun h => Js.noConfusion h⟩

/-- C9 (amended): a network error, a non-2xx status, an unparseable body, or a
payload on which reading the expected fields throws, all degrade to the empty
list and no error escapes either client; but a payload whose truthy `results`
value merely lacks the expected inner shape is not normalized (see the
counterexample: `executeSPARQLQuery` yields `undefined` when `bindings` is
missing, `searchLOV` yields the raw `results` value). -/
theorem remote_client_degrade_to_empty :
    ((executeSPARQLQuery FetchOutcome.networkError).1 = Js.arr [])
    ∧ (∀ body, (executeSPARQLQuery (FetchOutcome.response false body)).1 = Js.arr [])
    ∧ ((executeSPARQLQuery (FetchOutcome.response true none)).1 = Js.arr [])
    ∧ (∀ b, jsGet b "results" = Except.error () →
        (executeSPARQLQuery (FetchOutcome.response true (some b))).1 = Js.arr [])
    ∧ (∀ b r, jsGet b "results" = Except.ok r → jsGet r "bindings" = Except.error () →
        (executeSPARQLQuery (FetchOutcome.response true (some b))).1 = Js.arr [])
    ∧ (∀ term, jsTrim term ≠ "" → (searchLOV FetchOutcome.networkError term).1 = Js.arr [])
    ∧ (∀ term body, jsTrim term ≠ "" →
        (searchLOV (FetchOutcome.response false body) term).1 = Js.arr [])
    ∧ (∀ term, jsTrim term ≠ "" →
        (searchLOV (FetchOutcome.response true none) term).1 = Js.arr [])
    ∧ (∀ term b, jsTrim term ≠ "" → jsGet b "results" = Except.error () →
        (searchLOV (FetchOutcome.response true (some b)) term).1 = Js.arr [])
    ∧ (∀ term b r, jsTrim term ≠ "" → jsGet b "results" = Except.ok r → jsTruthy r = false →
        (searchLOV (FetchOutcome.response true (some b)) term).1 = Js.arr []) := by
  refine ⟨rfl, fun body => ?_, rfl, fun b hb => ?_, fun b r hb hr => ?_,
    fun term ht => ?_, fun term body ht => ?_, fun term ht => ?_,
    fun term b ht hb => ?_, fun term b r ht hb hr => ?_⟩
  · cases body <;> rfl
  · simp [executeSPARQLQuery, executeSPARQLQueryBody, hb, bind, Except.bind, pure, Except.pure]
  · simp [executeSPARQLQuery, executeSPARQLQueryBody, hb, hr, bind, Except.bind, pure, Except.pure]
  · simp [searchLOV, searchLOVBody, if_neg ht, bind, Except.bind, throw, throwThe,
      MonadExceptOf.throw, Functor.map, Except.map, pure, Except.pure]
  · cases body <;>
      simp [searchLOV, searchLOVBody, if_neg ht, bind, Except.bind, throw, throwThe,
        MonadExceptOf.throw, Functor.map, Except.map, pure, Except.pure]
  · simp [searchLOV, searchLOVBody, if_neg ht, bind, Except.bind, throw, throwThe,
      MonadExceptOf.throw, Functor.map, Except.map, pure, Except.pure]
  · simp [searchLOV, searchLOVBody, if_neg ht, hb, bind, Except.bind, throw, throwThe,
      MonadExceptOf.throw, Functor.map, Except.map, pure, Except.pure]
  · simp [searchLOV, searchLOVBody, if_neg ht, hb, jsOr, hr, bind, Except.bind, throw,
      throwThe, MonadExceptOf.throw, Functor.map, Except.map, pure, Except.pure]

/-- Witness for C9 (amended) at concrete malformed payloads: a null body and
a body whose `results` field is the falsy `undefined`. -/
theorem remote_client_degrade_to_empty_witness :
    (executeSPARQLQuery (FetchOutcome.response true (some Js.null))).1 = Js.arr []
    ∧ (searchLOV (FetchOutcome.response true (some (Js.obj []))) "x").1 = Js.arr [] :=
  ⟨remote_client_degrade_to_empty.2.2.2.1 Js.null rfl,
   remote_client_degrade_to_empty.2.2.2.2.2.2.2.2.2 "x" (Js.obj []) Js.undef
     (by decide) rfl rfl⟩

/-- C10: when an exception is thrown during orchestration (after the keyword
search returned a non-empty value), `performSearch` leaves the previously
stored results untouched, sets the single generic error message, and clears
the loading flag. -/
theorem performSearch_error_preserves_results (term : String) (tS tA tD : FetchOutcome)
    (st : AppState)
    (h1 : jsTrim term ≠ "")
    (h2 : jsLengthEqZero (searchLOV tS term).1 = false)
    (h3 : (searchPipeline (searchLOV tS term).1 tA tD).1 = Except.error ()) :
    (performSearch term tS tA tD st).state.searchResults = st.searchResults
    ∧ (performSearch term tS tA tD st).state.error = some "Search failed. Please try again."
    ∧ (performSearch term tS tA tD st).state.loading = false := by
  simp only [performSearch, if_neg h1, h2, Bool.false_eq_true, if_false, h3]
  exact ⟨trivial, trivial, trivial⟩

/-- Witness for C10: a search response whose `results` field is the number
`5` (truthy, non-zero "length") makes the uri-collection step throw, and the
previously stored one-element result list survives. -/
theorem performSearch_error_preserves_results_witness :
    (performSearch "x" (FetchOutcome.response true (some (Js.obj [("results", Js.num 5)])))
        FetchOutcome.networkError FetchOutcome.networkError
        (AppState.mk [EnhancedResult.mk Js.null defaultAdoptionData defaultDesignData 0]
          true none)).state.searchResults =
      (AppState.mk [EnhancedResult.mk Js.null defaultAdoptionData defaultDesignData 0]
        true none).searchResults
    ∧ (performSearch "x" (FetchOutcome.response true (some (Js.obj [("results", Js.num 5)])))
        FetchOutcome.networkError FetchOutcome.networkError
        (AppState.mk [EnhancedResult.mk Js.null defaultAdoptionData defaultDesignData 0]
          true none)).state.error = some "Search failed. Please try again."
    ∧ (performSearch "x" (FetchOutcome.response true (some (Js.obj [("results", Js.num 5)])))
        FetchOutcome.networkError FetchOutcome.networkError
        (AppState.mk [EnhancedResult.mk Js.null defaultAdoptionData defaultDesignData 0]
          true none)).state.loading = false :=
  performSearch_error_preserves_results "x"
    (FetchOutcome.response true (some (Js.obj [("results", Js.num 5)])))
    FetchOutcome.networkError FetchOutcome.networkError
    (AppState.mk [EnhancedResult.mk Js.null defaultAdoptionData defaultDesignData 0] true none)
    (by decide) rfl rfl
